import Mathlib

/-!
Shallow embedding of the deterministic core of the Financial-Agent
repository (package `afa`): timeframe parsing, intent extraction, the
router-plan JSON contract, the indicator/metrics computations and the
router/tools control loop, together with theorems settling the frozen
claims about them.

Texts are modelled as lists of characters, machine dates as explicit
year/month/day records with proleptic-Gregorian arithmetic, and floats
as exact rationals (an exact-arithmetic reading of the numeric code).
-/

namespace Afa

/-! ## Character and text utilities (regex scanning primitives) -/

/-- Python `\w` (ASCII fragment): letters, digits and underscore. -/
def isWordChar (c : Char) : Bool := c.isAlphanum || c = '_'

/-- Python `\s` (ASCII fragment). -/
def isSpaceChar (c : Char) : Bool :=
  c = ' ' || c = '\t' || c = '\n' || c = '\r' || c = '\x0b' || c = '\x0c'

def lowerChar (c : Char) : Char := c.toLower

def upperChar (c : Char) : Char := c.toUpper

/-- Consume a literal sequence of characters, returning the rest. -/
def expectChars : List Char → List Char → Option (List Char)
  | [], s => some s
  | _ :: _, [] => none
  | p :: ps, c :: cs => if c = p then expectChars ps cs else none

/-- Drop a (possibly empty) maximal run of whitespace: regex `\s*`. -/
def dropSpaces : List Char → List Char
  | [] => []
  | c :: rest => if isSpaceChar c then dropSpaces rest else c :: rest

/-- Regex `\s+`: at least one whitespace character, consumed maximally. -/
def takeSpaces1 : List Char → Option (List Char)
  | [] => none
  | c :: rest => if isSpaceChar c then some (dropSpaces rest) else none

/-- Split off the maximal leading run of decimal digits. -/
def takeDigits : List Char → List Char × List Char
  | [] => ([], [])
  | c :: rest =>
    if c.isDigit then
      let r := takeDigits rest
      (c :: r.1, r.2)
    else ([], c :: rest)

/-- Numeric value of a digit run. -/
def digitsVal (ds : List Char) : Nat :=
  ds.foldl (fun a c => a * 10 + (c.toNat - 48)) 0

/-- Exactly `n` digits (a maximal run of another length fails, as the
regex `\d{n}` would on the surrounding context). -/
def takeFixedDigits (n : Nat) (s : List Char) : Option (Nat × List Char) :=
  let r := takeDigits s
  if r.1.length = n then some (digitsVal r.1, r.2) else none

/-- Regex `\b` after a match: end of input or a non-word character. -/
def boundaryAfter : List Char → Bool
  | [] => true
  | c :: _ => !(isWordChar c)

/-- `re.search` driver for patterns of the form `\b...`: try the matcher
at every position whose preceding character is not a word character
(the patterns all start with a word character, so `\b` holds exactly
there), left to right. -/
def scanText (f : List Char → Option α) : Bool → List Char → Option α
  | prevW, [] => if prevW then none else f []
  | prevW, c :: rest =>
    match (if prevW then none else f (c :: rest)) with
    | some r => some r
    | none => scanText f (isWordChar c) rest

/-- First position at which `pat` occurs as a contiguous sublist. -/
def listContains (pat : List Char) : List Char → Bool
  | [] => pat.isEmpty
  | c :: rest => (expectChars pat (c :: rest)).isSome || listContains pat rest

/-! ## Date model

`pandas.Timestamp` values normalised to midnight are modelled as
proleptic-Gregorian year/month/day records.  Chronological comparison
of valid dates is lexicographic; `dateKey` is a strictly monotone
linearisation of that order (months have at most 31 days).  `pandas`
restricts representable timestamps to the years 1677–2262; theorems
carry that bound where the arithmetic needs it. -/

structure Date where
  y : Nat
  m : Nat
  d : Nat
deriving DecidableEq

def isLeap (y : Nat) : Bool := y % 4 = 0 && (y % 100 ≠ 0 || y % 400 = 0)

def daysInMonth (y : Nat) (m : Nat) : Nat :=
  if m = 2 then (if isLeap y then 29 else 28)
  else if m = 4 || m = 6 || m = 9 || m = 11 then 30
  else 31

/-- Calendar validity (month and day ranges). -/
def ValidDate (a : Date) : Prop :=
  1 ≤ a.m ∧ a.m ≤ 12 ∧ 1 ≤ a.d ∧ a.d ≤ daysInMonth a.y a.m

instance (a : Date) : Decidable (ValidDate a) := by
  unfold ValidDate; infer_instance

/-- Strictly monotone linearisation of chronological order on valid
dates (used for the `start > end` comparison). -/
def dateKey (a : Date) : Nat := (12 * a.y + (a.m - 1)) * 32 + a.d

/-- `today - pd.DateOffset(months=n)`: move the month counter back,
clamping the day to the length of the target month. -/
def subMonths (a : Date) (n : Nat) : Date :=
  let tm := 12 * a.y + (a.m - 1) - n
  let y2 := tm / 12
  let m2 := tm % 12 + 1
  ⟨y2, m2, min a.d (daysInMonth y2 m2)⟩

/-- `today - pd.DateOffset(years=n)`: same month, day clamped
(Feb 29 maps to Feb 28 in a non-leap year). -/
def subYears (a : Date) (n : Nat) : Date :=
  let y2 := a.y - n
  ⟨y2, a.m, min a.d (daysInMonth y2 a.m)⟩

/-- The previous calendar day. -/
def subDay (a : Date) : Date :=
  if 2 ≤ a.d then ⟨a.y, a.m, a.d - 1⟩
  else if 2 ≤ a.m then ⟨a.y, a.m - 1, daysInMonth a.y (a.m - 1)⟩
  else ⟨a.y - 1, 12, 31⟩

/-- `today - pd.DateOffset(days=n)` (and weeks via `7*n`). -/
def subDays (a : Date) : Nat → Date
  | 0 => a
  | n + 1 => subDays (subDay a) n

/-- Rata-die style day number (days since 0000-03-01), the closed-form
civil-calendar formula; day differences of `pd.Timestamp` values equal
differences of this number. -/
def dayNumber (a : Date) : Nat :=
  let y2 := if a.m ≤ 2 then a.y - 1 else a.y
  let mp := if 3 ≤ a.m then a.m - 3 else a.m + 9
  365 * y2 + y2 / 4 + y2 / 400 + (153 * mp + 2) / 5 + (a.d - 1) - y2 / 100

def digitChar (n : Nat) : Char := Char.ofNat (48 + n % 10)

/-- `strftime('%Y-%m-%d')` for four-digit years. -/
def fmtDate (a : Date) : String :=
  String.mk [digitChar (a.y / 1000), digitChar (a.y / 100), digitChar (a.y / 10),
    digitChar a.y, '-', digitChar (a.m / 10), digitChar a.m, '-',
    digitChar (a.d / 10), digitChar a.d]

/-! ## Timeframe parsing (`src/afa/parsing/timeframes.py`)

Each compiled regex is embedded as a hand-written scanner with the same
alternation order and greediness; `re.IGNORECASE` is modelled by
lowercasing the text up-front.  `pd.to_datetime(..., errors="coerce")`
on an unparseable or out-of-range date yields `NaT`; this is modelled
as absence (`none`). -/

/-- Matcher for one `\d{4}-\d{2}-\d{2}` group. -/
def matchDateAt (s : List Char) : Option ((Nat × Nat × Nat) × List Char) :=
  match takeFixedDigits 4 s with
  | none => none
  | some (y, s1) =>
    match s1 with
    | '-' :: s2 =>
      match takeFixedDigits 2 s2 with
      | none => none
      | some (m, s3) =>
        match s3 with
        | '-' :: s4 =>
          match takeFixedDigits 2 s4 with
          | none => none
          | some (d, s5) => some ((y, m, d), s5)
        | _ => none
    | _ => none

/-- `(\d{4}-\d{2}-\d{2})\s*(?:to|-|–)\s*(\d{4}-\d{2}-\d{2})\b`. -/
def matchFromToCore (s : List Char) : Option ((Nat × Nat × Nat) × (Nat × Nat × Nat)) :=
  match matchDateAt s with
  | none => none
  | some (d1, s1) =>
    let s2 := dropSpaces s1
    let sepRest : Option (List Char) :=
      match expectChars "to".toList s2 with
      | some r => some r
      | none =>
        match s2 with
        | '-' :: r => some r
        | '–' :: r => some r
        | _ => none
    match sepRest with
    | none => none
    | some s3 =>
      match matchDateAt (dropSpaces s3) with
      | none => none
      | some (d2, s4) => if boundaryAfter s4 then some (d1, d2) else none

/-- `_FROM_TO_RE` at one position: the leading `(?:from\s+)?` is tried
greedily first, falling back to the bare date range. -/
def matchFromToAt (s : List Char) : Option ((Nat × Nat × Nat) × (Nat × Nat × Nat)) :=
  match expectChars "from".toList s with
  | some s2 =>
    match takeSpaces1 s2 with
    | some s3 =>
      match matchFromToCore s3 with
      | some r => some r
      | none => matchFromToCore s
    | none => matchFromToCore s
  | none => matchFromToCore s

/-- `_SINCE_RE` at one position: `(?:since|from)\s+(\d{4}-\d{2}-\d{2})\b`. -/
def matchSinceAt (s : List Char) : Option (Nat × Nat × Nat) :=
  let afterKw :=
    match expectChars "since".toList s with
    | some s2 => some s2
    | none => expectChars "from".toList s
  match afterKw with
  | none => none
  | some s2 =>
    match takeSpaces1 s2 with
    | none => none
    | some s3 =>
      match matchDateAt s3 with
      | none => none
      | some (r, s4) => if boundaryAfter s4 then some r else none

/-- Try literal alternatives in order, each followed by `\b`. -/
def tryAlternatives (alts : List (List Char)) (s : List Char) : Option (List Char) :=
  match alts with
  | [] => none
  | a :: rest =>
    match expectChars a s with
    | some s2 => if boundaryAfter s2 then some a else tryAlternatives rest s
    | none => tryAlternatives rest s

/-- The `_COMPACT_RE` vocabulary, in the regex's alternation order
(`3y` is absent from the source pattern). -/
def compactAlternatives : List (List Char) :=
  ["1d".toList, "5d".toList, "1w".toList, "1m".toList, "3m".toList,
   "6m".toList, "9m".toList, "1y".toList, "2y".toList, "5y".toList]

def relativeUnits : List (List Char) :=
  ["day".toList, "days".toList, "week".toList, "weeks".toList,
   "month".toList, "months".toList, "year".toList, "years".toList]

def singleUnits : List (List Char) :=
  ["day".toList, "week".toList, "month".toList, "year".toList]

/-- `_RELATIVE_RE` at one position:
`(?:last|past)\s+(\d{1,3})\s*(day|days|...)\b`. -/
def matchRelativeAt (s : List Char) : Option (Nat × List Char) :=
  let afterKw :=
    match expectChars "last".toList s with
    | some s2 => some s2
    | none => expectChars "past".toList s
  match afterKw with
  | none => none
  | some s2 =>
    match takeSpaces1 s2 with
    | none => none
    | some s3 =>
      let dg := takeDigits s3
      if dg.1.length = 0 || 3 < dg.1.length then none
      else
        match tryAlternatives relativeUnits (dropSpaces dg.2) with
        | some u => some (digitsVal dg.1, u)
        | none => none

/-- `_SINGLE_UNIT_RE` at one position: `(?:last|past)\s*(day|week|month|year)\b`. -/
def matchSingleUnitAt (s : List Char) : Option (List Char) :=
  let afterKw :=
    match expectChars "last".toList s with
    | some s2 => some s2
    | none => expectChars "past".toList s
  match afterKw with
  | none => none
  | some s2 => tryAlternatives singleUnits (dropSpaces s2)

/-- `_YTD_RE` at one position: `(ytd|year\s*to\s*date)\b`. -/
def matchYtdAt (s : List Char) : Option Unit :=
  let alt2 : Option Unit :=
    match expectChars "year".toList s with
    | none => none
    | some s2 =>
      match expectChars "to".toList (dropSpaces s2) with
      | none => none
      | some s3 =>
        match expectChars "date".toList (dropSpaces s3) with
        | none => none
        | some s4 => if boundaryAfter s4 then some () else none
  match expectChars "ytd".toList s with
  | some s2 => if boundaryAfter s2 then some () else alt2
  | none => alt2

/-- `pd.to_datetime(..., errors="coerce")` on a `YYYY-MM-DD` group:
calendar-invalid or out-of-`Timestamp`-range dates give `NaT` (absence). -/
def mkValidDate (r : Nat × Nat × Nat) : Option Date :=
  if 1 ≤ r.2.1 ∧ r.2.1 ≤ 12 ∧ 1 ≤ r.2.2 ∧ r.2.2 ≤ daysInMonth r.1 r.2.1
      ∧ 1678 ≤ r.1 ∧ r.1 ≤ 2261 then
    some ⟨r.1, r.2.1, r.2.2⟩
  else none

/-- `_parse_absolute`. -/
def parse_absolute (lc : List Char) (today : Date) : Option Date × Option Date :=
  match scanText matchFromToAt false lc with
  | some (r1, r2) => (mkValidDate r1, mkValidDate r2)
  | none =>
    match scanText matchSinceAt false lc with
    | some r => (mkValidDate r, some today)
    | none => (none, none)

/-- `_parse_ytd`. -/
def parse_ytd (lc : List Char) (today : Date) : Option Date × Option Date :=
  match scanText matchYtdAt false lc with
  | some _ => (some ⟨today.y, 1, 1⟩, some today)
  | none => (none, none)

/-- Offset dispatch of `_parse_relative` (`"day" in unit` etc. on the
captured unit is a prefix test for this vocabulary). -/
def relativeOffset (today : Date) (n : Nat) (u : List Char) : Date :=
  if (expectChars "day".toList u).isSome then subDays today n
  else if (expectChars "week".toList u).isSome then subDays today (7 * n)
  else if (expectChars "month".toList u).isSome then subMonths today n
  else subYears today n

/-- `_parse_relative`. -/
def parse_relative (lc : List Char) (today : Date) : Option Date × Option Date :=
  match scanText matchRelativeAt false lc with
  | some (n, u) => (some (relativeOffset today n u), some today)
  | none =>
    match scanText matchSingleUnitAt false lc with
    | some u => (some (relativeOffset today 1 u), some today)
    | none => (none, none)

/-- `_parse_compact`: dispatch on the final letter of the matched token. -/
def parse_compact (lc : List Char) (today : Date) : Option Date × Option Date :=
  match scanText (tryAlternatives compactAlternatives) false lc with
  | none => (none, none)
  | some tok =>
    let n := digitsVal tok.dropLast
    match tok.getLast? with
    | some 'd' => (some (subDays today n), some today)
    | some 'w' => (some (subDays today (7 * n)), some today)
    | some 'm' => (some (subMonths today n), some today)
    | some 'y' => (some (subYears today n), some today)
    | _ => (none, none)

/-- `_infer_interval`: window length in days chooses the bar interval. -/
def infer_interval (s e : Option Date) : String :=
  match s, e with
  | some a, some b =>
    let delta : Int := (dayNumber b : Int) - (dayNumber a : Int)
    if 365 * 5 < delta then "1mo"
    else if 365 * 2 < delta then "1wk"
    else "1d"
  | _, _ => "1d"

/-- Defaulting, one-sided fill and the `start > end` swap of
`resolve_timeframe` / `coerce_dates`. -/
def finish_dates (today : Date) (s0 e0 : Option Date) : Option Date × Option Date :=
  let sd := if s0.isNone && e0.isNone then some (subMonths today 6) else s0
  let ed := if s0.isNone && e0.isNone then some today else e0
  let ed2 := if sd.isSome && ed.isNone then some today else ed
  let sd2 :=
    match ed2, sd with
    | some e, none => some (subMonths e 6)
    | _, _ => sd
  match sd2, ed2 with
  | some a, some b => if dateKey b < dateKey a then (some b, some a) else (some a, some b)
  | _, _ => (sd2, ed2)

/-- The parser cascade of `resolve_timeframe` on the lowercased text. -/
def resolve_dates_core (lc : List Char) (today : Date) : Option Date × Option Date :=
  let p0 := parse_absolute lc today
  let p1 := if p0.1.isNone && p0.2.isNone then parse_ytd lc today else p0
  let p2 := if p1.1.isNone && p1.2.isNone then parse_relative lc today else p1
  let p3 := if p2.1.isNone && p2.2.isNone then parse_compact lc today else p2
  finish_dates today p3.1 p3.2

/-- The resolved (start, end) dates of `resolve_timeframe`, before
formatting. -/
def resolve_dates (text : String) (today : Date) : Option Date × Option Date :=
  resolve_dates_core (text.toList.map lowerChar) today

/-- `resolve_timeframe` (anchor supplied explicitly, as in deterministic
testing; the resolved dates are formatted and the interval inferred from
the same dates). -/
def resolve_timeframe (text : String) (today : Date) :
    Option String × Option String × String :=
  let p := resolve_dates text today
  (p.1.map fmtDate, p.2.map fmtDate, infer_interval p.1 p.2)

/-! ## Intent parsing (`src/afa/parsing/intent.py`)

`TICKER_PATTERN.findall(text.upper())` returns exactly the maximal
word-character runs of the uppercased text that are purely alphabetic
and 1–5 characters long (a longer or mixed run can satisfy neither
trailing nor inner `\b`). -/

def STOPWORDS : List String :=
  ["RSI", "MACD", "EMA", "SMA", "BB", "BBANDS", "VWAP", "YTD",
   "USD", "EPS", "PE", "ETF", "IPO", "EV", "EBITDA", "AI",
   "AND", "OR", "VS", "V", "VS.", "THE", "A", "AN"]

/-- Maximal leading run of word characters. -/
def takeWordRun : List Char → List Char × List Char
  | [] => ([], [])
  | c :: rest =>
    if isWordChar c then
      let r := takeWordRun rest
      (c :: r.1, r.2)
    else ([], c :: rest)

def wordRunsAux : Nat → List Char → List (List Char)
  | 0, _ => []
  | _ + 1, [] => []
  | fuel + 1, c :: rest =>
    if isWordChar c then
      let r := takeWordRun rest
      (c :: r.1) :: wordRunsAux fuel r.2
    else wordRunsAux fuel rest

/-- All maximal word-character runs, left to right. -/
def wordRuns (s : List Char) : List (List Char) := wordRunsAux s.length s

def isUpperAlpha (c : Char) : Bool := 'A' ≤ c && c ≤ 'Z'

/-- The dedup-and-filter loop of `extract_tickers` (the accumulator
doubles as the `seen` set, order preserved). -/
def tickerLoop (up : List Char) : List String → List String → List String
  | acc, [] => acc.reverse
  | acc, t :: rest =>
    if acc.contains t then tickerLoop up acc rest
    else if STOPWORDS.contains t then tickerLoop up acc rest
    else if t.length ≤ 2 && !(listContains ('$' :: t.toList) up) then
      tickerLoop up acc rest
    else tickerLoop up (t :: acc) rest

/-- `extract_tickers`. -/
def extract_tickers (text : String) : List String :=
  if text.isEmpty then []
  else
    let up := text.toList.map upperChar
    let found := (wordRuns up).filter fun r =>
      r.all isUpperAlpha && 1 ≤ r.length && r.length ≤ 5
    tickerLoop up [] (found.map String.mk)

/-- `COMPARE_PATTERN.search`: the literal alternation
`" vs | versus | compare "`, case-insensitively. -/
def comparePatternFound (text : String) : Bool :=
  let lc := text.toList.map lowerChar
  listContains " vs ".toList lc || listContains " versus ".toList lc ||
    listContains " compare ".toList lc

/-- `detect_compare`. -/
def detect_compare (text : String) (tickers : List String) : Bool :=
  if text.isEmpty then false
  else if 2 ≤ tickers.length then true
  else comparePatternFound text

/-- `parse_intent`. -/
def parse_intent (question : String) : List String × Bool :=
  if question.isEmpty then ([], false)
  else (extract_tickers question, detect_compare question (extract_tickers question))

/-! ## Router-plan JSON contract (`src/afa/schemas.py`)

Router output objects are arbitrary JSON values; Python dicts are
association lists with first-match lookup.  The validators return the
error (`none` = valid); interpolated details of the source's f-string
messages are elided. -/

inductive JVal where
  | jnull
  | jbool (b : Bool)
  | jnum (q : ℚ)
  | jstr (s : String)
  | jarr (items : List JVal)
  | jobj (fields : List (String × JVal))

/-- First-match association-list lookup (Python dict access). -/
def alistGet (k : String) : List (String × α) → Option α
  | [] => none
  | (k2, v) :: rest => if k2 = k then some v else alistGet k rest

/-- Python truthiness of a JSON value. -/
def truthy : JVal → Bool
  | .jnull => false
  | .jbool b => b
  | .jnum q => decide (q ≠ 0)
  | .jstr s => !s.isEmpty
  | .jarr l => !l.isEmpty
  | .jobj f => !f.isEmpty

def ALLOWED_INDICATORS : List String :=
  ["sma20", "sma50", "ema20", "rsi14", "macd", "bbands"]

def MAX_TICKERS_PER_CALL : Nat := 5

def isJStr : JVal → Bool
  | .jstr _ => true
  | _ => false

/-- The `fetch_prices` argument checks (each applied only when the key
is present in `args`). -/
def fetchPricesChecks (args : List (String × JVal)) : Option String :=
  match alistGet "tickers" args with
  | some (.jarr ts) =>
    if MAX_TICKERS_PER_CALL < ts.length then some "fetch_prices.tickers exceeds cap"
    else if ts.any (fun t => !isJStr t) then
      some "fetch_prices.tickers must contain only strings"
    else intervalAndDatesChecks args
  | some _ => some "fetch_prices.tickers must be list"
  | none => intervalAndDatesChecks args
where
  intervalAndDatesChecks (args : List (String × JVal)) : Option String :=
    match alistGet "interval" args with
    | some v =>
      if (match v with
          | .jstr s => (s == "1d") || (s == "1wk") || (s == "1mo")
          | _ => false) then dateChecks args
      else some "fetch_prices.interval must be 1d/1wk/1mo"
    | none => dateChecks args
  dateChecks (args : List (String × JVal)) : Option String :=
    match alistGet "start" args with
    | some v =>
      if (match v with
          | .jnull => true
          | .jstr _ => true
          | _ => false) then endCheck args
      else some "fetch_prices.start must be string or null"
    | none => endCheck args
  endCheck (args : List (String × JVal)) : Option String :=
    match alistGet "end" args with
    | some v =>
      if (match v with
          | .jnull => true
          | .jstr _ => true
          | _ => false) then none
      else some "fetch_prices.end must be string or null"
    | none => none

/-- The `compute_indicators` argument checks. -/
def computeIndicatorsChecks (args : List (String × JVal)) : Option String :=
  match alistGet "indicators" args with
  | some (.jarr l) =>
    if l.any (fun v =>
        match v with
        | .jstr s => !ALLOWED_INDICATORS.contains s
        | _ => true) then
      some "Unknown indicators"
    else tickersListCheck args
  | some _ => some "compute_indicators.indicators must be list"
  | none => tickersListCheck args
where
  tickersListCheck (args : List (String × JVal)) : Option String :=
    match alistGet "tickers" args with
    | some (.jarr _) => none
    | some _ => some "compute_indicators.tickers must be list"
    | none => none

/-- The `summarize_metrics` argument checks. -/
def summarizeMetricsChecks (args : List (String × JVal)) : Option String :=
  match alistGet "tickers" args with
  | some (.jarr _) => intervalCheck args
  | some _ => some "summarize_metrics.tickers must be list"
  | none => intervalCheck args
where
  intervalCheck (args : List (String × JVal)) : Option String :=
    match alistGet "interval" args with
    | some v =>
      if (match v with
          | .jstr s => (s == "1d") || (s == "1wk") || (s == "1mo")
          | _ => false) then none
      else some "summarize_metrics.interval must be 1d/1wk/1mo"
    | none => none

/-- `validate_tool_call` (`none` = valid). -/
def validate_tool_call (obj : List (String × JVal)) : Option String :=
  match alistGet "name" obj with
  | none => some "Missing required field name"
  | some nameV =>
    match alistGet "args" obj with
    | none => some "Missing required field args"
    | some argsV =>
      match nameV with
      | .jstr nm =>
        if !(["fetch_prices", "compute_indicators", "summarize_metrics"].contains nm) then
          some "Unknown tool name"
        else
          match argsV with
          | .jobj args =>
            if nm = "fetch_prices" then fetchPricesChecks args
            else if nm = "compute_indicators" then computeIndicatorsChecks args
            else summarizeMetricsChecks args
          | _ => some "Tool args must be dict"
      | _ => some "Unknown tool name"

/-- The per-element loop of `validate_plan` over `tool_calls`. -/
def validateToolCalls : List JVal → Option String
  | [] => none
  | tc :: rest =>
    match tc with
    | .jobj fields =>
      match validate_tool_call fields with
      | some e => some e
      | none => validateToolCalls rest
    | _ => some "tool_calls element must be dict"

/-- `validate_plan` (`none` = valid). -/
def validate_plan (obj : List (String × JVal)) : Option String :=
  match alistGet "next_action" obj with
  | none => some "Missing required field next_action"
  | some na =>
    match na with
    | .jstr s =>
      if s = "CALL_TOOLS" then
        match alistGet "tool_calls" obj with
        | none => some "tool_calls required when next_action is CALL_TOOLS"
        | some (.jarr tcs) =>
          if tcs.isEmpty then some "tool_calls cannot be empty when next_action is CALL_TOOLS"
          else validateToolCalls tcs
        | some _ => some "tool_calls must be list"
      else if s = "FINALIZE" then
        match alistGet "tool_calls" obj with
        | some v =>
          if truthy v then some "tool_calls should be empty or absent when next_action is FINALIZE"
          else none
        | none => none
      else some "next_action must be CALL_TOOLS or FINALIZE"
    | _ => some "next_action must be CALL_TOOLS or FINALIZE"

/-- `coerce_plan`: raises `ValueError` exactly when `validate_plan`
rejects, otherwise repackages `next_action` and (when present)
`tool_calls`. -/
def coerce_plan (obj : List (String × JVal)) : Except String (JVal × Option JVal) :=
  match validate_plan obj with
  | some e => .error e
  | none => .ok ((alistGet "next_action" obj).getD .jnull, alistGet "tool_calls" obj)

/-! ## Price/indicator frames and metrics (`src/afa/tools/`)

A DataFrame is a date index plus named columns of optional rationals
(`none` = NaN); columns align with the index positionally and the
PriceSeries invariant rules out duplicate dates, so the source's
dropna/index-intersection/`.loc` chains are the positional filters
below.  Floats are read as exact rationals; a sample standard deviation
is carried symbolically (`msqrt q` denotes `√q`), and the NaN that
`Series.std(ddof=1)` yields on a single observation is `mnan`. -/

structure DFrame where
  index : List Date
  cols : List (String × List (Option ℚ))

def getCol (df : DFrame) (name : String) : Option (List (Option ℚ)) :=
  alistGet name df.cols

/-- `df.empty`: true when either axis has length 0. -/
def dfEmpty (df : DFrame) : Bool := df.index.isEmpty || df.cols.isEmpty

/-- Rows where both columns are non-missing, in order. -/
def alignedPairs (a b : List (Option ℚ)) : List (ℚ × ℚ) :=
  (a.zip b).filterMap fun p =>
    match p with
    | (some x, some y) => some (x, y)
    | _ => none

/-- `_classify_macd_state` (the final `else: "flat"` arm of the source's
`elif` chain is kept verbatim). -/
def classify_macd_state (df : DFrame) : String :=
  match getCol df "macd", getCol df "macd_signal" with
  | some mc, some sc =>
    if (mc.filterMap id).length < 2 ∨ (sc.filterMap id).length < 2 then "unknown"
    else
      let common := alignedPairs mc sc
      if common.length < 2 then "unknown"
      else
        match common.reverse with
        | (cm, cs) :: (pm, ps) :: _ =>
          if ¬ (ps < pm) ∧ cs < cm then "cross_up"
          else if ps < pm ∧ ¬ (cs < cm) then "cross_down"
          else if cs < cm then "above"
          else if ¬ (cs < cm) then "below"
          else "flat"
        | _ => "unknown"
  | _, _ => "unknown"

/-- `_classify_bb_position`. -/
def classify_bb_position (df : DFrame) : Option String :=
  match getCol df "bb_low", getCol df "bb_high", getCol df "bb_mid", getCol df "Close" with
  | some lo, some hi, some mid, some cl =>
    let rows := ((lo.zip hi).zip (mid.zip cl)).filterMap fun p =>
      match p with
      | ((some l, some h), (some m, some c)) => some (l, h, m, c)
      | _ => none
    match rows.getLast? with
    | none => none
    | some (l, h, _, c) =>
      if h < c then some "above_upper"
      else if c < l then some "below_lower"
      else
        let width := h - l
        if width = 0 then some "inside"
        else if (h - c) / width < 1 / 10 then some "near_upper"
        else if (c - l) / width < 1 / 10 then some "near_lower"
        else some "inside"
  | _, _, _, _ => none

/-- Metric values: date strings, exact rationals, a symbolic square
root (`msqrt q` stands for `√q`, from `std × √252`) and NaN. -/
inductive MVal where
  | mnull
  | mstr (s : String)
  | mnum (q : ℚ)
  | msqrt (q : ℚ)
  | mnan
deriving DecidableEq

/-- `Series.pct_change().dropna()` on an already non-missing series. -/
def pctChanges (xs : List ℚ) : List ℚ :=
  List.zipWith (fun a b => b / a - 1) xs xs.tail

/-- Sample variance (`ddof=1`), defined for two or more observations. -/
def sampleVar (xs : List ℚ) : ℚ :=
  let n : ℚ := xs.length
  let mean := xs.sum / n
  (xs.map fun r => (r - mean) * (r - mean)).sum / (n - 1)

def cummaxAux (m : ℚ) : List ℚ → List ℚ
  | [] => []
  | x :: r => max m x :: cummaxAux (max m x) r

/-- `Series.cummax()`. -/
def cummaxList : List ℚ → List ℚ
  | [] => []
  | x :: r => x :: cummaxAux x r

/-- Minimum of a non-empty series (`Series.min()`). -/
def qmin : List ℚ → ℚ
  | [] => 0
  | x :: r => r.foldl min x

/-- `np.polyfit(arange(n), y, 1)[0]`: the ordinary-least-squares slope
against the 0-based integer time index. -/
def olsSlope (ys : List ℚ) : ℚ :=
  let n : ℚ := ys.length
  let xs : List ℚ := (List.range ys.length).map fun i => (i : ℚ)
  let sx := xs.sum
  let sy := ys.sum
  let sxy := (List.zipWith (· * ·) xs ys).sum
  let sxx := (xs.map fun x => x * x).sum
  (n * sxy - sx * sy) / (n * sxx - sx * sx)

def noDataDigest : List (String × MVal) :=
  [("period_start", .mnull), ("period_end", .mnull), ("note", .mstr "no data")]

/-- `summarize_metrics` (total: every Python path either returns a
digest or is statically unreachable). -/
def summarize_metrics (df : DFrame) (interval : String) : List (String × MVal) :=
  if dfEmpty df then noDataDigest
  else
    match df.index.head?, df.index.getLast? with
    | some i0, some iN =>
      match getCol df "Close" with
      | none =>
        [("period_start", .mstr (fmtDate i0)), ("period_end", .mstr (fmtDate iN)),
         ("note", .mstr "missing Close column")]
      | some cc =>
        let base := [("period_start", MVal.mstr (fmtDate i0)),
                     ("period_end", MVal.mstr (fmtDate iN))]
        if df.index.length < 2 then base ++ [("note", .mstr "insufficient data")]
        else
          let closes := cc.filterMap id
          if closes.length < 2 then base ++ [("note", .mstr "insufficient data")]
          else
            let firstC := closes.headD 0
            let lastC := closes.getLastD 0
            let vol : MVal :=
              if interval = "1d" ∧ 2 ≤ closes.length then
                let rets := pctChanges closes
                if 1 ≤ rets.length then
                  if rets.length = 1 then .mnan else .msqrt (sampleVar rets * 252)
                else .mnull
              else .mnull
            let maxdd := qmin (List.zipWith (fun c m => c / m - 1) closes (cummaxList closes))
            let slope : MVal :=
              if 2 ≤ closes.length then .mnum (olsSlope closes) else .mnull
            let rsi : MVal :=
              match getCol df "rsi14" with
              | some rc =>
                match (rc.filterMap id).getLast? with
                | some v => .mnum v
                | none => .mnull
              | none => .mnull
            base ++
              [("period_return", .mnum (lastC / firstC - 1)),
               ("annualized_vol", vol),
               ("max_drawdown", .mnum maxdd),
               ("trend_slope", slope),
               ("rsi_last", rsi),
               ("macd_state", .mstr (classify_macd_state df)),
               ("bb_position",
                 match classify_bb_position df with
                 | some s => .mstr s
                 | none => .mnull)]
    | _, _ => noDataDigest

/-! ## Indicator engine (`src/afa/tools/indicators.py`)

The MACD pipeline is embedded at series level over exact rationals
(`ewm(span, adjust=False).mean()` is the standard first-order
recursion). -/

/-- `ewm(span=s, adjust=False).mean()` after the first observation. -/
def emaAux (al : ℚ) (prev : ℚ) : List ℚ → List ℚ
  | [] => []
  | x :: rest => (al * x + (1 - al) * prev) :: emaAux al (al * x + (1 - al) * prev) rest

/-- `_ema`: exponential moving average with smoothing `2/(span+1)`. -/
def ema_list (span : Nat) (xs : List ℚ) : List ℚ :=
  match xs with
  | [] => []
  | x :: rest => x :: emaAux (2 / (span + 1)) x rest

/-- `_macd`: MACD line, signal line and histogram. -/
def macd_parts (closes : List ℚ) : List ℚ × List ℚ × List ℚ :=
  let macd := List.zipWith (· - ·) (ema_list 12 closes) (ema_list 26 closes)
  let signal := ema_list 9 macd
  let hist := List.zipWith (· - ·) macd signal
  (macd, signal, hist)

def SUPPORTED_INDICATORS : List String :=
  ["sma20", "sma50", "ema20", "rsi14", "macd", "bbands"]

/-- `compute_indicators_pandas`: the Close-column and
indicator-vocabulary validation (raises are `Except.error`); the
numeric augmentation of the surviving calls is a parameter `fill`
(its per-indicator formulas are embedded separately at series level). -/
def compute_indicators_pandas (fill : DFrame → List String → DFrame) (df : DFrame)
    (indicators : Option (List String)) : Except String DFrame :=
  if (getCol df "Close").isNone then
    .error "DataFrame must contain a Close column"
  else
    let inds := indicators.getD SUPPORTED_INDICATORS
    if inds.any (fun i => !SUPPORTED_INDICATORS.contains i) then
      .error "Unsupported indicators"
    else .ok (fill df inds)

/-! ## Tools node (`src/afa/nodes/tools_node.py`)

Tool calls are the structured (already coerced) shape the node
consumes.  `fetch_prices` is the opaque price-fetch collaborator, a
function parameter; its failure modes are folded into the returned
mapping (the node's own `try/except` cannot fire on a total oracle). -/

structure ToolArgs where
  tickers : Option (List String)
  indicators : Option (List String)
  interval : Option String
  start : Option String
  end_ : Option String

def emptyArgs : ToolArgs := ⟨none, none, none, none, none⟩

structure ToolCall where
  name : String
  args : ToolArgs

structure RouterPlan where
  next_action : String
  tool_calls : List ToolCall

structure Parsed where
  tickers : List String
  start : Option String
  end_ : Option String
  interval : Option String

/-- Python `dict[k] = v`: replace in place or append. -/
def alistPut (k : String) (v : α) : List (String × α) → List (String × α)
  | [] => [(k, v)]
  | (k2, v2) :: rest => if k2 = k then (k, v) :: rest else (k2, v2) :: alistPut k v rest

/-- The fetch oracle: tickers, start, end, interval ↦ per-ticker frames. -/
def FetchOracle : Type := List String → Option String → Option String → String →
  List (String × DFrame)

/-- One merge step of `_handle_fetch_prices`: a non-empty fetched frame
replaces the stored one; an empty frame is added only for new tickers. -/
def fetchMergeStep (acc : List (String × DFrame)) (p : String × DFrame) :
    List (String × DFrame) :=
  if !dfEmpty p.2 then alistPut p.1 p.2 acc
  else if (alistGet p.1 acc).isNone then alistPut p.1 p.2 acc
  else acc

/-- `_handle_fetch_prices`. -/
def handle_fetch_prices (fetch : FetchOracle) (dfs : List (String × DFrame))
    (args : ToolArgs) : List (String × DFrame) :=
  let tickers := args.tickers.getD []
  if tickers.isEmpty then dfs
  else (fetch tickers args.start args.end_ (args.interval.getD "1d")).foldl fetchMergeStep dfs

/-- One ticker of `_handle_compute_indicators`: a raised
`compute_indicators_pandas` error is swallowed and the stored frame
kept. -/
def computeTickerStep (fill : DFrame → List String → DFrame)
    (indicators : Option (List String)) (acc : List (String × DFrame)) (t : String) :
    List (String × DFrame) :=
  match alistGet t acc with
  | none => acc
  | some df =>
    if dfEmpty df then acc
    else
      match compute_indicators_pandas fill df indicators with
      | .ok d2 => alistPut t d2 acc
      | .error _ => acc

/-- `_handle_compute_indicators`. -/
def handle_compute_indicators (fill : DFrame → List String → DFrame)
    (dfs : List (String × DFrame)) (args : ToolArgs) : List (String × DFrame) :=
  (args.tickers.getD (dfs.map Prod.fst)).foldl (computeTickerStep fill args.indicators) dfs

/-- One ticker of `_handle_summarize_metrics`. -/
def summarizeTickerStep (dfs : List (String × DFrame)) (interval : String)
    (acc : List (String × List (String × MVal))) (t : String) :
    List (String × List (String × MVal)) :=
  match alistGet t dfs with
  | none => acc
  | some df =>
    if dfEmpty df then acc
    else alistPut t (summarize_metrics df interval) acc

/-- `_handle_summarize_metrics`. -/
def handle_summarize_metrics (dfs : List (String × DFrame))
    (mets : List (String × List (String × MVal))) (args : ToolArgs)
    (parsedInterval : Option String) : List (String × List (String × MVal)) :=
  (args.tickers.getD (dfs.map Prod.fst)).foldl
    (summarizeTickerStep dfs (args.interval.getD (parsedInterval.getD "1d"))) mets

/-- One step of the `tools_node` dispatch loop (unknown tool names are
no-ops). -/
def toolStep (fill : DFrame → List String → DFrame) (fetch : FetchOracle)
    (parsed : Parsed)
    (acc : List (String × DFrame) × List (String × List (String × MVal)))
    (tc : ToolCall) :
    List (String × DFrame) × List (String × List (String × MVal)) :=
  if tc.name = "fetch_prices" then (handle_fetch_prices fetch acc.1 tc.args, acc.2)
  else if tc.name = "compute_indicators" then
    (handle_compute_indicators fill acc.1 tc.args, acc.2)
  else if tc.name = "summarize_metrics" then
    (acc.1, handle_summarize_metrics acc.1 acc.2 tc.args parsed.interval)
  else acc

/-- `tools_node`: executes the plan's tool calls in order over local
copies and returns the updated dataframes/metrics maps. -/
def tools_node (fill : DFrame → List String → DFrame) (fetch : FetchOracle)
    (dataframes : List (String × DFrame))
    (mets : List (String × List (String × MVal))) (parsed : Parsed)
    (plan : RouterPlan) :
    List (String × DFrame) × List (String × List (String × MVal)) :=
  plan.tool_calls.foldl (toolStep fill fetch parsed) (dataframes, mets)

/-! ## Router and control loop (`src/afa/nodes/router.py`, `src/afa/graph.py`)

The planner LLM plus the JSON-extraction/`coerce_plan` pipeline is one
oracle: `some p` is a successfully coerced plan, `none` any parse or
validation failure (which the source replaces by
`_create_fallback_plan`). -/

structure LoopState where
  iterations : Nat
  dataframes : List (String × DFrame)
  metrics : List (String × List (String × MVal))
  parsed : Parsed

def PlannerOracle : Type := LoopState → Option RouterPlan

/-- Python `if parsed.get("start"):` — present and truthy. -/
def truthyStr : Option String → Option String
  | some s => if s.isEmpty then none else some s
  | none => none

/-- `_create_fallback_plan`. -/
def create_fallback_plan (st : LoopState) : RouterPlan :=
  let requested := st.parsed.tickers
  let missing := requested.filter fun t => (alistGet t st.metrics).isNone
  if !missing.isEmpty || st.metrics.isEmpty then
    { next_action := "CALL_TOOLS",
      tool_calls :=
        [⟨"fetch_prices",
          ⟨some (if requested.isEmpty then ["AAPL"] else requested), none,
           some (st.parsed.interval.getD "1d"), truthyStr st.parsed.start,
           truthyStr st.parsed.end_⟩⟩,
         ⟨"compute_indicators", ⟨none, some ["sma20", "rsi14", "macd"], none, none, none⟩⟩,
         ⟨"summarize_metrics", emptyArgs⟩] }
  else { next_action := "FINALIZE", tool_calls := [] }

/-- `router_node`: increments the iteration counter; at the cap the
plan is forced to FINALIZE without consulting the planner (the boolean
records whether the planner collaborator was invoked). -/
def router_node (planner : PlannerOracle) (st : LoopState) : Nat × RouterPlan × Bool :=
  let it := st.iterations + 1
  if 3 ≤ it then (it, ⟨"FINALIZE", []⟩, false)
  else
    match planner st with
    | some p => (it, p, true)
    | none => (it, create_fallback_plan st, true)

/-- `_route_decider`: any value other than `CALL_TOOLS` routes to the
finalizer. -/
def route_decider (plan : RouterPlan) : String :=
  if plan.next_action = "CALL_TOOLS" then "CALL_TOOLS" else "FINALIZE"

/-- The compiled-graph loop router → (tools_node → router)* → finalizer,
fuel-indexed; returns the number of planner invocations and the final
state (the finalizer only records the answer text and is outside the
counting). -/
def run_loop (planner : PlannerOracle) (fill : DFrame → List String → DFrame)
    (fetch : FetchOracle) : Nat → LoopState → Nat × LoopState
  | 0, st => (0, st)
  | fuel + 1, st =>
    let r := router_node planner st
    let st1 := { st with iterations := r.1 }
    if route_decider r.2.1 = "CALL_TOOLS" then
      let upd := tools_node fill fetch st1.dataframes st1.metrics st1.parsed r.2.1
      let st2 := { st1 with dataframes := upd.1, metrics := upd.2 }
      let rest := run_loop planner fill fetch fuel st2
      ((if r.2.2 then 1 else 0) + rest.1, rest.2)
    else ((if r.2.2 then 1 else 0), st1)

/-! ## Claim-side auxiliary data -/

/-- The compact-token offsets named by the specification, restricted to
the vocabulary actually present in `_COMPACT_RE` (the spec additionally
lists `3y`, which the pattern does not contain). -/
def token_offset : List (String × (Date → Date)) :=
  [("1d", fun a => subDays a 1), ("5d", fun a => subDays a 5),
   ("1w", fun a => subDays a 7), ("1m", fun a => subMonths a 1),
   ("3m", fun a => subMonths a 3), ("6m", fun a => subMonths a 6),
   ("9m", fun a => subMonths a 9), ("1y", fun a => subYears a 1),
   ("2y", fun a => subYears a 2), ("5y", fun a => subYears a 5)]

/-- A two-row frame whose MACD and signal lines coincide (difference 0
at both aligned points). -/
def macdFlatFrame : DFrame :=
  { index := [⟨2024, 1, 1⟩, ⟨2024, 1, 2⟩],
    cols := [("macd", [some 0, some 0]), ("macd_signal", [some 0, some 0])] }

/-- A two-row frame with a MACD/signal upward sign change. -/
def macdCrossFrame : DFrame :=
  { index := [⟨2024, 1, 1⟩, ⟨2024, 1, 2⟩],
    cols := [("macd", [some 1, some 3]), ("macd_signal", [some 2, some 1])] }

/-- A frame with only one aligned MACD/signal pair. -/
def macdShortFrame : DFrame :=
  { index := [⟨2024, 1, 1⟩, ⟨2024, 1, 2⟩],
    cols := [("macd", [some 1, none]), ("macd_signal", [some 2, some 1])] }

/-! ## Theorems -/

theorem daysInMonth_bounds (y m : Nat) : 1 ≤ daysInMonth y m ∧ daysInMonth y m ≤ 31 := by
  unfold daysInMonth
  split
  · split <;> omega
  · split <;> omega

theorem subMonths_key_le (a : Date) (n : Nat) : dateKey (subMonths a n) ≤ dateKey a := by
  unfold subMonths dateKey
  have h1 : 12 * ((12 * a.y + (a.m - 1) - n) / 12) + (12 * a.y + (a.m - 1) - n) % 12
      = 12 * a.y + (a.m - 1) - n := Nat.div_add_mod _ 12
  have h2 : min a.d (daysInMonth ((12 * a.y + (a.m - 1) - n) / 12)
      ((12 * a.y + (a.m - 1) - n) % 12 + 1)) ≤ a.d := min_le_left _ _
  dsimp only
  omega

theorem subYears_key_le (a : Date) (n : Nat) : dateKey (subYears a n) ≤ dateKey a := by
  unfold subYears dateKey
  have h2 : min a.d (daysInMonth (a.y - n) a.m) ≤ a.d := min_le_left _ _
  dsimp only
  omega

theorem subDay_step (a : Date) (hv : ValidDate a) (hy : 1 ≤ a.y) :
    dateKey (subDay a) ≤ dateKey a ∧ ValidDate (subDay a) ∧ a.y - 1 ≤ (subDay a).y := by
  obtain ⟨h1, h2, h3, h4⟩ := hv
  unfold subDay
  by_cases hd : 2 ≤ a.d
  · rw [if_pos hd]
    exact ⟨by unfold dateKey; dsimp only; omega,
      ⟨h1, h2, by dsimp only; omega, by dsimp only; omega⟩, by dsimp only; omega⟩
  · rw [if_neg hd]
    by_cases hm : 2 ≤ a.m
    · rw [if_pos hm]
      have hb := daysInMonth_bounds a.y (a.m - 1)
      refine ⟨by unfold dateKey; dsimp only; omega,
        ⟨by dsimp only; omega, by dsimp only; omega, by dsimp only; omega,
         by dsimp only; omega⟩, by dsimp only; omega⟩
    · rw [if_neg hm]
      have h31 : daysInMonth (a.y - 1) 12 = 31 := rfl
      refine ⟨by unfold dateKey; dsimp only; omega,
        ⟨by dsimp only; omega, by dsimp only; omega, by dsimp only; omega,
         by dsimp only; omega⟩, by dsimp only; omega⟩

theorem subDays_props (n : Nat) (a : Date) (hv : ValidDate a) (hn : n ≤ a.y) :
    dateKey (subDays a n) ≤ dateKey a ∧ ValidDate (subDays a n) ∧
      a.y - n ≤ (subDays a n).y := by
  induction n generalizing a with
  | zero => exact ⟨Nat.le_refl _, hv, by simp [subDays]⟩
  | succ n ih =>
    have hy : 1 ≤ a.y := by omega
    obtain ⟨hk, hv2, hy2⟩ := subDay_step a hv hy
    obtain ⟨k2, v2, y2⟩ := ih (subDay a) hv2 (by omega)
    have hs : subDays a (n + 1) = subDays (subDay a) n := rfl
    exact ⟨by rw [hs]; exact Nat.le_trans k2 hk, by rw [hs]; exact v2, by rw [hs]; omega⟩

theorem finish_dates_le (t s e : Date) (h : dateKey s ≤ dateKey e) :
    finish_dates t (some s) (some e) = (some s, some e) := by
  have h2 : ¬ dateKey e < dateKey s := by omega
  simp [finish_dates, h2]

theorem parse_compact_of_scan (lc : List Char) (t : Date) (tok : List Char)
    (h : scanText (tryAlternatives compactAlternatives) false lc = some tok) :
    parse_compact lc t =
      (match tok.getLast? with
       | some 'd' => (some (subDays t (digitsVal tok.dropLast)), some t)
       | some 'w' => (some (subDays t (7 * digitsVal tok.dropLast)), some t)
       | some 'm' => (some (subMonths t (digitsVal tok.dropLast)), some t)
       | some 'y' => (some (subYears t (digitsVal tok.dropLast)), some t)
       | _ => (none, none)) := by
  unfold parse_compact
  rw [h]

theorem resolve_dates_via_compact (lc : List Char) (t : Date)
    (habs : parse_absolute lc t = (none, none))
    (hytd : parse_ytd lc t = (none, none))
    (hrel : parse_relative lc t = (none, none)) :
    resolve_dates_core lc t =
      finish_dates t (parse_compact lc t).1 (parse_compact lc t).2 := by
  unfold resolve_dates_core
  simp [habs, hytd, hrel]

theorem c2_case (text : String) (a : Date) (off : Date → Date)
    (habs : parse_absolute (text.toList.map lowerChar) a = (none, none))
    (hytd : parse_ytd (text.toList.map lowerChar) a = (none, none))
    (hrel : parse_relative (text.toList.map lowerChar) a = (none, none))
    (hpc : parse_compact (text.toList.map lowerChar) a = (some (off a), some a))
    (hkey : dateKey (off a) ≤ dateKey a) :
    (resolve_timeframe text a).1 = some (fmtDate (off a)) ∧
    (resolve_timeframe text a).2.1 = some (fmtDate a) := by
  have hfin : resolve_dates text a = (some (off a), some a) := by
    rw [show resolve_dates text a = resolve_dates_core (text.toList.map lowerChar) a from rfl,
      resolve_dates_via_compact _ _ habs hytd hrel, hpc]
    exact finish_dates_le _ _ _ hkey
  constructor
  · rw [show (resolve_timeframe text a).1 = (resolve_dates text a).1.map fmtDate from rfl, hfin]
    rfl
  · rw [show (resolve_timeframe text a).2.1 = (resolve_dates text a).2.map fmtDate from rfl, hfin]
    rfl

/-- Claim C2 (amended): for every pandas-representable anchor date and
every text in which no higher-priority pattern matches and the compact
regex finds one of the tokens 1d, 5d, 1w, 1m, 3m, 6m, 9m, 1y, 2y, 5y
(the source vocabulary, which omits the spec's `3y`), resolve_timeframe
returns start = anchor − the token's offset and end = anchor. -/
theorem claim_C2_amended (text : String) (a : Date) (tok : String) (off : Date → Date)
    (hv : ValidDate a) (hy : 1677 ≤ a.y)
    (hmem : (tok, off) ∈ token_offset)
    (habs : parse_absolute (text.toList.map lowerChar) a = (none, none))
    (hytd : parse_ytd (text.toList.map lowerChar) a = (none, none))
    (hrel : parse_relative (text.toList.map lowerChar) a = (none, none))
    (hscan : scanText (tryAlternatives compactAlternatives) false
      (text.toList.map lowerChar) = some tok.toList) :
    (resolve_timeframe text a).1 = some (fmtDate (off a)) ∧
    (resolve_timeframe text a).2.1 = some (fmtDate a) := by
  fin_cases hmem
  · have hpc : parse_compact (text.toList.map lowerChar) a = (some (subDays a 1), some a) := by
      simpa using parse_compact_of_scan (text.toList.map lowerChar) a _ hscan
    exact c2_case text a (fun x => subDays x 1) habs hytd hrel hpc
      (subDays_props 1 a hv (by omega)).1
  · have hpc : parse_compact (text.toList.map lowerChar) a = (some (subDays a 5), some a) := by
      simpa using parse_compact_of_scan (text.toList.map lowerChar) a _ hscan
    exact c2_case text a (fun x => subDays x 5) habs hytd hrel hpc
      (subDays_props 5 a hv (by omega)).1
  · have hpc : parse_compact (text.toList.map lowerChar) a = (some (subDays a 7), some a) := by
      simpa using parse_compact_of_scan (text.toList.map lowerChar) a _ hscan
    exact c2_case text a (fun x => subDays x 7) habs hytd hrel hpc
      (subDays_props 7 a hv (by omega)).1
  · have hpc : parse_compact (text.toList.map lowerChar) a = (some (subMonths a 1), some a) := by
      simpa using parse_compact_of_scan (text.toList.map lowerChar) a _ hscan
    exact c2_case text a (fun x => subMonths x 1) habs hytd hrel hpc (subMonths_key_le a 1)
  · have hpc : parse_compact (text.toList.map lowerChar) a = (some (subMonths a 3), some a) := by
      simpa using parse_compact_of_scan (text.toList.map lowerChar) a _ hscan
    exact c2_case text a (fun x => subMonths x 3) habs hytd hrel hpc (subMonths_key_le a 3)
  · have hpc : parse_compact (text.toList.map lowerChar) a = (some (subMonths a 6), some a) := by
      simpa using parse_compact_of_scan (text.toList.map lowerChar) a _ hscan
    exact c2_case text a (fun x => subMonths x 6) habs hytd hrel hpc (subMonths_key_le a 6)
  · have hpc : parse_compact (text.toList.map lowerChar) a = (some (subMonths a 9), some a) := by
      simpa using parse_compact_of_scan (text.toList.map lowerChar) a _ hscan
    exact c2_case text a (fun x => subMonths x 9) habs hytd hrel hpc (subMonths_key_le a 9)
  · have hpc : parse_compact (text.toList.map lowerChar) a = (some (subYears a 1), some a) := by
      simpa using parse_compact_of_scan (text.toList.map lowerChar) a _ hscan
    exact c2_case text a (fun x => subYears x 1) habs hytd hrel hpc (subYears_key_le a 1)
  · have hpc : parse_compact (text.toList.map lowerChar) a = (some (subYears a 2), some a) := by
      simpa using parse_compact_of_scan (text.toList.map lowerChar) a _ hscan
    exact c2_case text a (fun x => subYears x 2) habs hytd hrel hpc (subYears_key_le a 2)
  · have hpc : parse_compact (text.toList.map lowerChar) a = (some (subYears a 5), some a) := by
      simpa using parse_compact_of_scan (text.toList.map lowerChar) a _ hscan
    exact c2_case text a (fun x => subYears x 5) habs hytd hrel hpc (subYears_key_le a 5)

/-- Claim C2, as frozen, is false at the token `3y`: on the anchor
2024-08-15 the source's `_COMPACT_RE` does not match `3y`, so the
resolver falls back to the 6-month default window instead of
anchor − 3 years (= 2021-08-15). -/
theorem claim_C2_counterexample :
    (resolve_timeframe "3y" ⟨2024, 8, 15⟩).1 ≠ some (fmtDate (subYears ⟨2024, 8, 15⟩ 3)) ∧
    fmtDate (subYears ⟨2024, 8, 15⟩ 3) = "2021-08-15" ∧
    (resolve_timeframe "3y" ⟨2024, 8, 15⟩).1 = some "2024-02-15" ∧
    (resolve_timeframe "3y" ⟨2024, 8, 15⟩).2.1 = some "2024-08-15" := by
  decide

/-- Witness for claim C2 at the token `3m` and anchor 2024-08-15. -/
theorem claim_C2_witness :
    (resolve_timeframe "3m" ⟨2024, 8, 15⟩).1 = some (fmtDate (subMonths ⟨2024, 8, 15⟩ 3)) ∧
    (resolve_timeframe "3m" ⟨2024, 8, 15⟩).2.1 = some (fmtDate ⟨2024, 8, 15⟩) :=
  claim_C2_amended "3m" ⟨2024, 8, 15⟩ "3m" (fun a => subMonths a 3)
    (by decide) (by decide)
    (.tail _ (.tail _ (.tail _ (.tail _ (.head _)))))
    (by decide) (by decide) (by decide) (by decide)

/-- Claim C3: the interval resolve_timeframe chooses for a resolved
(start, end) window of exactly two 365-day years plus one day (731
days) is weekly, and for exactly two 365-day years (730 days) daily. -/
theorem claim_C3 (text : String) (today s e : Date)
    (hres : resolve_dates text today = (some s, some e)) :
    ((dayNumber e : Int) - (dayNumber s : Int) = 365 * 2 + 1 →
      (resolve_timeframe text today).2.2 = "1wk") ∧
    ((dayNumber e : Int) - (dayNumber s : Int) = 365 * 2 →
      (resolve_timeframe text today).2.2 = "1d") := by
  have h22 : (resolve_timeframe text today).2.2 = infer_interval (some s) (some e) := by
    rw [show (resolve_timeframe text today).2.2
      = infer_interval (resolve_dates text today).1 (resolve_dates text today).2 from rfl, hres]
  constructor <;> intro h <;> rw [h22] <;> simp [infer_interval, h]

/-- Witness for claim C3 on concrete absolute ranges: 2022-01-01 to
2024-01-02 is 731 days and yields weekly; 2022-01-01 to 2024-01-01 is
730 days and yields daily. -/
theorem claim_C3_witness :
    (resolve_timeframe "from 2022-01-01 to 2024-01-02" ⟨2025, 8, 15⟩).2.2 = "1wk" ∧
    (resolve_timeframe "from 2022-01-01 to 2024-01-01" ⟨2025, 8, 15⟩).2.2 = "1d" :=
  ⟨(claim_C3 "from 2022-01-01 to 2024-01-02" ⟨2025, 8, 15⟩ ⟨2022, 1, 1⟩ ⟨2024, 1, 2⟩
      (by decide)).1 (by decide),
   (claim_C3 "from 2022-01-01 to 2024-01-01" ⟨2025, 8, 15⟩ ⟨2022, 1, 1⟩ ⟨2024, 1, 1⟩
      (by decide)).2 (by decide)⟩

theorem alignedPairs_length_le (a b : List (Option ℚ)) :
    (alignedPairs a b).length ≤ (a.filterMap id).length ∧
    (alignedPairs a b).length ≤ (b.filterMap id).length := by
  induction a generalizing b with
  | nil => simp [alignedPairs]
  | cons x xs ih =>
    cases b with
    | nil => simp [alignedPairs]
    | cons y ys =>
      have h := ih ys
      cases x <;> cases y <;>
        simp [alignedPairs, List.filterMap_cons, id_eq] at h ⊢ <;> omega

/-- Claim C4 (amended): with at least two aligned non-missing
MACD/signal pairs, the classification compares the sign of
(MACD − signal) at the last two aligned points — ≤ 0 to > 0 is
cross_up, > 0 to ≤ 0 is cross_down, otherwise above when the current
difference is positive and below when it is ≤ 0 (the source's `flat`
arm is unreachable: an exactly-equal current pair yields below, or
cross_down when the previous difference was positive); with fewer than
two aligned pairs the result is unknown. -/
theorem claim_C4_amended :
    (∀ (df : DFrame) (mc sc : List (Option ℚ)) (l : List (ℚ × ℚ)) (pm ps cm cs : ℚ),
      getCol df "macd" = some mc → getCol df "macd_signal" = some sc →
      alignedPairs mc sc = l ++ [(pm, ps), (cm, cs)] →
      classify_macd_state df =
        (if pm - ps ≤ 0 ∧ 0 < cm - cs then "cross_up"
         else if 0 < pm - ps ∧ cm - cs ≤ 0 then "cross_down"
         else if 0 < cm - cs then "above" else "below")) ∧
    (∀ (df : DFrame) (mc sc : List (Option ℚ)),
      getCol df "macd" = some mc → getCol df "macd_signal" = some sc →
      (alignedPairs mc sc).length < 2 →
      classify_macd_state df = "unknown") := by
  constructor
  · intro df mc sc l pm ps cm cs h1 h2 h3
    have hlen : ¬ ((mc.filterMap id).length < 2 ∨ (sc.filterMap id).length < 2) := by
      have hb := alignedPairs_length_le mc sc
      rw [h3] at hb
      simp only [List.length_append, List.length_cons, List.length_singleton] at hb
      omega
    unfold classify_macd_state
    rw [h1, h2]
    simp only [h3, if_neg hlen, List.length_append, List.length_cons,
      List.reverse_append, List.reverse_cons, List.reverse_nil, List.nil_append,
      List.cons_append, List.length_nil]
    rw [if_neg (by omega)]
    simp only [sub_nonpos, sub_pos]
    rcases lt_or_le ps pm with hp | hp <;> rcases lt_or_le cs cm with hc | hc
    · simp [hp, hc, not_le_of_lt hp, not_le_of_lt hc]
    · simp [hp, hc, not_le_of_lt hp, not_lt_of_le hc]
    · simp [hp, hc, not_lt_of_le hp]
    · simp [hp, hc, not_lt_of_le hp, not_lt_of_le hc]
  · intro df mc sc h1 h2 hlt
    unfold classify_macd_state
    simp only [h1, h2]
    by_cases hA : (mc.filterMap id).length < 2 ∨ (sc.filterMap id).length < 2
    · rw [if_pos hA]
    · rw [if_neg hA, if_pos hlt]

/-- Claim C4, as frozen, is false: a frame whose last two aligned MACD
and signal values are exactly equal (difference 0 at both points) is
classified "below", not the claimed "flat". -/
theorem claim_C4_counterexample :
    classify_macd_state macdFlatFrame = "below" ∧
    classify_macd_state macdFlatFrame ≠ "flat" ∧
    alignedPairs [some 0, some 0] [some 0, some 0] = [(0, 0), (0, 0)] := by
  decide

/-- Witness for claim C4 on concrete frames: a ≤0-to->0 transition
classifies cross_up, and a single aligned pair gives unknown. -/
theorem claim_C4_witness :
    classify_macd_state macdCrossFrame = "cross_up" ∧
    classify_macd_state macdShortFrame = "unknown" :=
  ⟨(claim_C4_amended.1 macdCrossFrame [some 1, some 3] [some 2, some 1] [] 1 2 3 1 rfl rfl
      (by decide)).trans (by norm_num),
   claim_C4_amended.2 macdShortFrame [some 1, none] [some 2, some 1] rfl rfl (by decide)⟩

/-- Claim C5: the code contradicts its own doctest.  `detect_compare`'s
docstring asserts `detect_compare("Compare these stocks", []) == True`,
but `COMPARE_PATTERN` = `" vs | versus | compare "` demands a space on
both sides of the keyword, so a keyword at the start of the text is not
matched and the call returns False; with a leading space it returns
True. -/
theorem claim_C5_code_bug :
    detect_compare "Compare these stocks" [] = false ∧
    (parse_intent "Compare these stocks").2 = false ∧
    detect_compare " compare these stocks" [] = true ∧
    detect_compare "AAPL vs MSFT" [] = true := by
  decide

/-- Claim C10: `validate_tool_call` applies the tickers, interval,
start and end checks of a fetch_prices call only when the respective
key is present in args; with all four absent the call is accepted. -/
theorem claim_C10 (obj : List (String × JVal)) (args : List (String × JVal))
    (hn : alistGet "name" obj = some (.jstr "fetch_prices"))
    (ha : alistGet "args" obj = some (.jobj args))
    (ht : alistGet "tickers" args = none)
    (hi : alistGet "interval" args = none)
    (hs : alistGet "start" args = none)
    (he : alistGet "end" args = none) :
    validate_tool_call obj = none := by
  unfold validate_tool_call
  simp only [hn, ha]
  simp [fetchPricesChecks, fetchPricesChecks.intervalAndDatesChecks,
    fetchPricesChecks.dateChecks, fetchPricesChecks.endCheck, ht, hi, hs, he]

/-- Witness for claim C10: the literal call
`{"name": "fetch_prices", "args": {}}` validates. -/
theorem claim_C10_witness :
    validate_tool_call [("name", JVal.jstr "fetch_prices"), ("args", JVal.jobj [])] = none :=
  claim_C10 [("name", JVal.jstr "fetch_prices"), ("args", JVal.jobj [])] []
    rfl rfl rfl rfl rfl rfl

theorem vtc_fetch_oversized (fields args : List (String × JVal)) (ts : List JVal)
    (hn : alistGet "name" fields = some (.jstr "fetch_prices"))
    (ha : alistGet "args" fields = some (.jobj args))
    (ht : alistGet "tickers" args = some (.jarr ts))
    (hlen : MAX_TICKERS_PER_CALL < ts.length) :
    validate_tool_call fields ≠ none := by
  unfold validate_tool_call
  simp only [hn, ha]
  simp [fetchPricesChecks, ht, if_pos hlen]

theorem validateToolCalls_mem_fail (tcs : List JVal) (fields args : List (String × JVal))
    (ts : List JVal) (hmem : JVal.jobj fields ∈ tcs)
    (hn : alistGet "name" fields = some (.jstr "fetch_prices"))
    (ha : alistGet "args" fields = some (.jobj args))
    (ht : alistGet "tickers" args = some (.jarr ts))
    (hlen : MAX_TICKERS_PER_CALL < ts.length) :
    validateToolCalls tcs ≠ none := by
  induction tcs with
  | nil => cases hmem
  | cons tc rest ih =>
    rcases List.mem_cons.mp hmem with heq | hrest
    · subst heq
      unfold validateToolCalls
      cases hv : validate_tool_call fields with
      | none => exact absurd hv (vtc_fetch_oversized fields args ts hn ha ht hlen)
      | some e => simp [hv]
    · unfold validateToolCalls
      cases tc with
      | jobj f2 =>
        cases hv : validate_tool_call f2 with
        | none => simp only [hv]; exact ih hrest
        | some e => simp [hv]
      | jnull => simp
      | jbool b => simp
      | jnum q => simp
      | jstr s => simp
      | jarr l => simp

theorem coerce_error_of_validate (obj : List (String × JVal))
    (h : validate_plan obj ≠ none) : ∃ e, coerce_plan obj = .error e := by
  unfold coerce_plan
  cases hv : validate_plan obj with
  | none => exact absurd hv h
  | some e => exact ⟨e, rfl⟩

/-- Claim C6: `validate_plan` rejects (and `coerce_plan` raises on) a
CALL_TOOLS plan whose tool_calls key is missing or an empty list, and
any plan whose tool_calls contain a fetch_prices call with more than 5
tickers. -/
theorem claim_C6 :
    (∀ obj : List (String × JVal),
      alistGet "next_action" obj = some (.jstr "CALL_TOOLS") →
      (alistGet "tool_calls" obj = none ∨ alistGet "tool_calls" obj = some (.jarr [])) →
      validate_plan obj ≠ none ∧ ∃ e, coerce_plan obj = .error e) ∧
    (∀ (obj : List (String × JVal)) (tcs : List JVal)
      (fields args : List (String × JVal)) (ts : List JVal),
      alistGet "tool_calls" obj = some (.jarr tcs) →
      JVal.jobj fields ∈ tcs →
      alistGet "name" fields = some (.jstr "fetch_prices") →
      alistGet "args" fields = some (.jobj args) →
      alistGet "tickers" args = some (.jarr ts) →
      5 < ts.length →
      validate_plan obj ≠ none ∧ ∃ e, coerce_plan obj = .error e) := by
  constructor
  · intro obj hna htc
    have hval : validate_plan obj ≠ none := by
      unfold validate_plan
      simp only [hna]
      rcases htc with h | h <;> simp [h]
    exact ⟨hval, coerce_error_of_validate obj hval⟩
  · intro obj tcs fields args ts htc hmem hn ha ht hlen
    have hne : ¬ tcs.isEmpty := by
      cases tcs with
      | nil => cases hmem
      | cons a l => simp
    have hval : validate_plan obj ≠ none := by
      unfold validate_plan
      cases hna : alistGet "next_action" obj with
      | none => simp
      | some na =>
        cases na with
        | jstr s =>
          by_cases hc : s = "CALL_TOOLS"
          · subst hc
            simp only [if_pos rfl, htc]
            rw [if_neg hne]
            exact validateToolCalls_mem_fail tcs fields args ts hmem hn ha ht hlen
          · by_cases hf : s = "FINALIZE"
            · subst hf
              simp only [hc, if_neg, htc]
              have : truthy (.jarr tcs) = true := by
                simp [truthy, hne]
              simp [this]
            · simp [hc, hf]
        | jnull => simp
        | jbool b => simp
        | jnum q => simp
        | jarr l => simp
        | jobj f => simp
    exact ⟨hval, coerce_error_of_validate obj hval⟩

/-- Witness for claim C6 at a plan missing tool_calls and a plan with a
six-ticker fetch_prices call. -/
theorem claim_C6_witness :
    validate_plan [("next_action", JVal.jstr "CALL_TOOLS")] ≠ none ∧
    validate_plan [("next_action", JVal.jstr "CALL_TOOLS"),
      ("tool_calls", JVal.jarr [JVal.jobj [("name", JVal.jstr "fetch_prices"),
        ("args", JVal.jobj [("tickers", JVal.jarr [JVal.jstr "A", JVal.jstr "B",
          JVal.jstr "C", JVal.jstr "D", JVal.jstr "E", JVal.jstr "F"])])]])] ≠ none :=
  ⟨(claim_C6.1 [("next_action", JVal.jstr "CALL_TOOLS")] rfl (Or.inl rfl)).1,
   (claim_C6.2 [("next_action", JVal.jstr "CALL_TOOLS"),
      ("tool_calls", JVal.jarr [JVal.jobj [("name", JVal.jstr "fetch_prices"),
        ("args", JVal.jobj [("tickers", JVal.jarr [JVal.jstr "A", JVal.jstr "B",
          JVal.jstr "C", JVal.jstr "D", JVal.jstr "E", JVal.jstr "F"])])]])]
      _ _ _ _ rfl (List.Mem.head _) rfl rfl rfl (by decide)).1⟩

theorem ema_list_length (span : Nat) (xs : List ℚ) :
    (ema_list span xs).length = xs.length := by
  cases xs with
  | nil => rfl
  | cons x rest =>
    simp only [ema_list, List.length_cons, Nat.succ_inj]
    generalize (2 : ℚ) / (span + 1) = al
    generalize x = prev
    induction rest generalizing prev with
    | nil => rfl
    | cons y ys ih => simp [emaAux, ih]

/-- Claim C7: the MACD pipeline satisfies macd = EMA(12) − EMA(26) of
the closes, signal = EMA(9) of the macd line, and histogram =
macd − signal at every row. -/
theorem claim_C7 (closes : List ℚ) :
    (macd_parts closes).1
      = List.zipWith (· - ·) (ema_list 12 closes) (ema_list 26 closes) ∧
    (macd_parts closes).2.1 = ema_list 9 (macd_parts closes).1 ∧
    (macd_parts closes).2.2
      = List.zipWith (· - ·) (macd_parts closes).1 (macd_parts closes).2.1 ∧
    ∀ (i : Nat) (h1 : i < (macd_parts closes).1.length)
      (h2 : i < (macd_parts closes).2.1.length) (h3 : i < (macd_parts closes).2.2.length),
      ((macd_parts closes).2.2)[i] = ((macd_parts closes).1)[i] - ((macd_parts closes).2.1)[i] := by
  refine ⟨rfl, rfl, rfl, ?_⟩
  intro i h1 h2 h3
  simp only [macd_parts] at h3 ⊢
  rw [List.getElem_zipWith]

/-- Witness for claim C7 on the series [1, 2] at row 1. -/
theorem claim_C7_witness :
    ((macd_parts [1, 2]).2.2).get ⟨1, by decide⟩
      = ((macd_parts [1, 2]).1).get ⟨1, by decide⟩
        - ((macd_parts [1, 2]).2.1).get ⟨1, by decide⟩ :=
  (claim_C7 [1, 2]).2.2.2 1 (by decide) (by decide) (by decide)

/-- Claim C8: summarize_metrics follows the edge-case policy in order —
empty frame: null dates and note "no data"; non-empty frame without a
Close column: start/end dates and note "missing Close column"; fewer
than 2 valid closes: start/end dates and note "insufficient data" with
no numeric fields.  (The embedding is a total function, so no path
raises.) -/
theorem claim_C8 (df : DFrame) (interval : String) :
    (dfEmpty df = true → summarize_metrics df interval = noDataDigest) ∧
    (dfEmpty df = false →
      ∀ (i0 : Date) (irest : List Date), df.index = i0 :: irest →
      getCol df "Close" = none →
      summarize_metrics df interval =
        [("period_start", .mstr (fmtDate i0)),
         ("period_end", .mstr (fmtDate ((i0 :: irest).getLast (List.cons_ne_nil i0 irest)))),
         ("note", .mstr "missing Close column")]) ∧
    (dfEmpty df = false →
      ∀ (i0 : Date) (irest : List Date), df.index = i0 :: irest →
      ∀ cc : List (Option ℚ), getCol df "Close" = some cc →
      (cc.filterMap id).length < 2 →
      summarize_metrics df interval =
        [("period_start", .mstr (fmtDate i0)),
         ("period_end", .mstr (fmtDate ((i0 :: irest).getLast (List.cons_ne_nil i0 irest)))),
         ("note", .mstr "insufficient data")]) := by
  refine ⟨?_, ?_, ?_⟩
  · intro h
    simp [summarize_metrics, h]
  · intro hne i0 irest hidx hcl
    simp only [summarize_metrics, hne, Bool.false_eq_true, if_false, hidx,
      List.head?_cons, List.getLast?_eq_getLast_of_ne_nil (List.cons_ne_nil i0 irest), hcl]
  · intro hne i0 irest hidx cc hcl hcc
    simp only [summarize_metrics, hne, Bool.false_eq_true, if_false, hidx,
      List.head?_cons, List.getLast?_eq_getLast_of_ne_nil (List.cons_ne_nil i0 irest), hcl]
    by_cases hlen2 : (i0 :: irest).length < 2
    · rw [if_pos hlen2]
      rfl
    · rw [if_neg hlen2, if_pos hcc]
      rfl

/-- Witness for claim C8 on three concrete frames (empty, no Close
column, a single close). -/
theorem claim_C8_witness :
    summarize_metrics ⟨[], []⟩ "1d" = noDataDigest ∧
    summarize_metrics ⟨[⟨2024, 1, 1⟩, ⟨2024, 1, 2⟩], [("Open", [some 1, some 2])]⟩ "1d"
      = [("period_start", .mstr "2024-01-01"), ("period_end", .mstr "2024-01-02"),
         ("note", .mstr "missing Close column")] ∧
    summarize_metrics ⟨[⟨2024, 1, 1⟩], [("Close", [some 5])]⟩ "1d"
      = [("period_start", .mstr "2024-01-01"), ("period_end", .mstr "2024-01-01"),
         ("note", .mstr "insufficient data")] :=
  ⟨(claim_C8 ⟨[], []⟩ "1d").1 rfl,
   ((claim_C8 ⟨[⟨2024, 1, 1⟩, ⟨2024, 1, 2⟩], [("Open", [some 1, some 2])]⟩ "1d").2.1
      rfl ⟨2024, 1, 1⟩ [⟨2024, 1, 2⟩] rfl rfl).trans (by decide),
   ((claim_C8 ⟨[⟨2024, 1, 1⟩], [("Close", [some 5])]⟩ "1d").2.2
      rfl ⟨2024, 1, 1⟩ [] rfl [some 5] rfl (by decide)).trans (by decide)⟩

theorem compute_invalid_error (fill : DFrame → List String → DFrame) (df : DFrame)
    (inds : List String) (hbad : ∃ i ∈ inds, SUPPORTED_INDICATORS.contains i = false) :
    ∃ e, compute_indicators_pandas fill df (some inds) = .error e := by
  unfold compute_indicators_pandas
  by_cases hc : (getCol df "Close").isNone
  · rw [if_pos hc]
    exact ⟨_, rfl⟩
  · rw [if_neg hc]
    have hany : inds.any (fun i => !SUPPORTED_INDICATORS.contains i) = true := by
      obtain ⟨i, hi, hb⟩ := hbad
      exact List.any_eq_true.mpr ⟨i, hi, by simp only [hb, Bool.not_false]⟩
    simp only [Option.getD_some]
    rw [if_pos hany]
    exact ⟨_, rfl⟩

theorem computeTickerStep_invalid (fill : DFrame → List String → DFrame)
    (inds : List String) (acc : List (String × DFrame)) (t : String)
    (hbad : ∃ i ∈ inds, SUPPORTED_INDICATORS.contains i = false) :
    computeTickerStep fill (some inds) acc t = acc := by
  unfold computeTickerStep
  cases hg : alistGet t acc with
  | none => rfl
  | some df =>
    by_cases he : dfEmpty df
    · simp [he]
    · obtain ⟨e, hE⟩ := compute_invalid_error fill df inds hbad
      simp [he, hE]

theorem handle_compute_invalid (fill : DFrame → List String → DFrame)
    (dfs : List (String × DFrame)) (args : ToolArgs) (inds : List String)
    (hind : args.indicators = some inds)
    (hbad : ∃ i ∈ inds, SUPPORTED_INDICATORS.contains i = false) :
    handle_compute_indicators fill dfs args = dfs := by
  unfold handle_compute_indicators
  rw [hind]
  have hall : ∀ (ts : List String) (acc : List (String × DFrame)),
      ts.foldl (computeTickerStep fill (some inds)) acc = acc := by
    intro ts
    induction ts with
    | nil => intro acc; rfl
    | cons t rest ih =>
      intro acc
      rw [List.foldl_cons, computeTickerStep_invalid fill inds acc t hbad]
      exact ih acc
  exact hall _ dfs

theorem toolStep_compute_invalid (fill : DFrame → List String → DFrame)
    (fetch : FetchOracle) (parsed : Parsed)
    (acc : List (String × DFrame) × List (String × List (String × MVal)))
    (args : ToolArgs) (inds : List String)
    (hind : args.indicators = some inds)
    (hbad : ∃ i ∈ inds, SUPPORTED_INDICATORS.contains i = false) :
    toolStep fill fetch parsed acc ⟨"compute_indicators", args⟩ = acc := by
  simp [toolStep, handle_compute_invalid fill acc.1 args inds hind hbad]

theorem foldl_preserve {γ β : Type} {P : γ → Prop} (f : γ → β → γ)
    (hf : ∀ acc b, P acc → P (f acc b)) :
    ∀ (bs : List β) (acc : γ), P acc → P (bs.foldl f acc) := by
  intro bs
  induction bs with
  | nil => intro acc h; exact h
  | cons b rest ih => intro acc h; exact ih _ (hf acc b h)

theorem alistGet_put {α : Type} (k k2 : String) (v : α) (l : List (String × α)) :
    alistGet k (alistPut k2 v l) = if k2 = k then some v else alistGet k l := by
  induction l with
  | nil => simp [alistPut, alistGet]
  | cons p rest ih =>
    obtain ⟨k3, v3⟩ := p
    by_cases h1 : k3 = k2
    · subst h1
      by_cases h2 : k3 = k <;> simp [alistPut, alistGet, h2]
    · by_cases h2 : k3 = k
      · subst h2
        have h3 : ¬ k2 = k3 := fun hh => h1 hh.symm
        simp [alistPut, alistGet, h1, h3]
      · simp [alistPut, alistGet, h1, h2, ih]

theorem alistGet_put_isSome {α : Type} (k k2 : String) (v : α) (l : List (String × α))
    (h : (alistGet k l).isSome = true) :
    (alistGet k (alistPut k2 v l)).isSome = true := by
  rw [alistGet_put]
  by_cases h2 : k2 = k <;> simp [h2, h]

theorem fetchMergeStep_keys (acc : List (String × DFrame)) (p : String × DFrame)
    (k : String) (h : (alistGet k acc).isSome = true) :
    (alistGet k (fetchMergeStep acc p)).isSome = true := by
  unfold fetchMergeStep
  split
  · exact alistGet_put_isSome _ _ _ _ h
  · split
    · exact alistGet_put_isSome _ _ _ _ h
    · exact h

theorem computeTickerStep_keys (fill : DFrame → List String → DFrame)
    (inds : Option (List String)) (acc : List (String × DFrame)) (t k : String)
    (h : (alistGet k acc).isSome = true) :
    (alistGet k (computeTickerStep fill inds acc t)).isSome = true := by
  unfold computeTickerStep
  cases alistGet t acc with
  | none => exact h
  | some df =>
    cases he : dfEmpty df with
    | true => simpa [he] using h
    | false =>
      simp only [he, Bool.false_eq_true, if_false]
      cases compute_indicators_pandas fill df inds with
      | ok d2 => exact alistGet_put_isSome _ _ _ _ h
      | error e => exact h

theorem summarizeTickerStep_keys (dfs : List (String × DFrame)) (interval : String)
    (acc : List (String × List (String × MVal))) (t k : String)
    (h : (alistGet k acc).isSome = true) :
    (alistGet k (summarizeTickerStep dfs interval acc t)).isSome = true := by
  unfold summarizeTickerStep
  cases alistGet t dfs with
  | none => exact h
  | some df =>
    cases he : dfEmpty df with
    | true => simpa [he] using h
    | false =>
      simp only [he, Bool.false_eq_true, if_false]
      exact alistGet_put_isSome _ _ _ _ h

theorem handle_fetch_keys (fetch : FetchOracle) (dfs : List (String × DFrame))
    (args : ToolArgs) (k : String) (h : (alistGet k dfs).isSome = true) :
    (alistGet k (handle_fetch_prices fetch dfs args)).isSome = true := by
  unfold handle_fetch_prices
  by_cases he : (args.tickers.getD []).isEmpty
  · simpa [he] using h
  · simp only [he, Bool.false_eq_true, if_false]
    exact foldl_preserve fetchMergeStep (fun acc b hh => fetchMergeStep_keys acc b k hh)
      _ dfs h

theorem handle_compute_keys (fill : DFrame → List String → DFrame)
    (dfs : List (String × DFrame)) (args : ToolArgs) (k : String)
    (h : (alistGet k dfs).isSome = true) :
    (alistGet k (handle_compute_indicators fill dfs args)).isSome = true := by
  unfold handle_compute_indicators
  exact foldl_preserve (computeTickerStep fill args.indicators)
    (fun acc b hh => computeTickerStep_keys fill args.indicators acc b k hh) _ dfs h

theorem handle_summarize_keys (dfs : List (String × DFrame))
    (mets : List (String × List (String × MVal))) (args : ToolArgs)
    (pint : Option String) (k : String) (h : (alistGet k mets).isSome = true) :
    (alistGet k (handle_summarize_metrics dfs mets args pint)).isSome = true := by
  unfold handle_summarize_metrics
  exact foldl_preserve (summarizeTickerStep dfs (args.interval.getD (pint.getD "1d")))
    (fun acc b hh => summarizeTickerStep_keys dfs _ acc b k hh) _ mets h

theorem toolStep_keys_dfs (fill : DFrame → List String → DFrame) (fetch : FetchOracle)
    (parsed : Parsed) (acc : List (String × DFrame) × List (String × List (String × MVal)))
    (tc : ToolCall) (k : String) (h : (alistGet k acc.1).isSome = true) :
    (alistGet k (toolStep fill fetch parsed acc tc).1).isSome = true := by
  unfold toolStep
  split
  · exact handle_fetch_keys fetch acc.1 tc.args k h
  · split
    · exact handle_compute_keys fill acc.1 tc.args k h
    · split
      · exact h
      · exact h

theorem toolStep_keys_mets (fill : DFrame → List String → DFrame) (fetch : FetchOracle)
    (parsed : Parsed) (acc : List (String × DFrame) × List (String × List (String × MVal)))
    (tc : ToolCall) (k : String) (h : (alistGet k acc.2).isSome = true) :
    (alistGet k (toolStep fill fetch parsed acc tc).2).isSome = true := by
  unfold toolStep
  split
  · exact h
  · split
    · exact h
    · split
      · exact handle_summarize_keys acc.1 acc.2 tc.args parsed.interval k h
      · exact h

/-- Claim C9: a compute_indicators call naming an unsupported indicator
is a no-op — the whole tools step equals the run with that call removed
(that ticker's frames unchanged, the remaining calls executed in
order), and no ticker key ever disappears from the dataframes or
metrics maps; the embedding is total, so no path raises. -/
theorem claim_C9 :
    (∀ (fill : DFrame → List String → DFrame) (fetch : FetchOracle)
      (dfs : List (String × DFrame)) (mets : List (String × List (String × MVal)))
      (parsed : Parsed) (na : String) (pre post : List ToolCall)
      (args : ToolArgs) (inds : List String),
      args.indicators = some inds →
      (∃ i ∈ inds, SUPPORTED_INDICATORS.contains i = false) →
      tools_node fill fetch dfs mets parsed ⟨na, pre ++ ⟨"compute_indicators", args⟩ :: post⟩
        = tools_node fill fetch dfs mets parsed ⟨na, pre ++ post⟩) ∧
    (∀ (fill : DFrame → List String → DFrame) (fetch : FetchOracle)
      (dfs : List (String × DFrame)) (mets : List (String × List (String × MVal)))
      (parsed : Parsed) (plan : RouterPlan) (k : String),
      ((alistGet k dfs).isSome = true →
        (alistGet k (tools_node fill fetch dfs mets parsed plan).1).isSome = true) ∧
      ((alistGet k mets).isSome = true →
        (alistGet k (tools_node fill fetch dfs mets parsed plan).2).isSome = true)) := by
  constructor
  · intro fill fetch dfs mets parsed na pre post args inds hind hbad
    unfold tools_node
    dsimp only
    rw [List.foldl_append, List.foldl_append, List.foldl_cons,
      toolStep_compute_invalid fill fetch parsed _ args inds hind hbad]
  · intro fill fetch dfs mets parsed plan k
    constructor
    · intro h
      exact foldl_preserve (toolStep fill fetch parsed)
        (fun acc b hh => toolStep_keys_dfs fill fetch parsed acc b k hh)
        plan.tool_calls (dfs, mets) h
    · intro h
      exact foldl_preserve (toolStep fill fetch parsed)
        (fun acc b hh => toolStep_keys_mets fill fetch parsed acc b k hh)
        plan.tool_calls (dfs, mets) h

/-- Witness for claim C9: with a one-ticker store, a plan whose middle
call requests the unsupported indicator "bogus" behaves exactly as the
plan without it, and the ticker's keys survive. -/
theorem claim_C9_witness :
    tools_node (fun df _ => df) (fun _ _ _ _ => [])
      [("AAPL", ⟨[⟨2024, 1, 1⟩], [("Close", [some 1])]⟩)] [] ⟨[], none, none, none⟩
      ⟨"CALL_TOOLS", [⟨"summarize_metrics", emptyArgs⟩] ++
        ⟨"compute_indicators", ⟨none, some ["bogus"], none, none, none⟩⟩ ::
        [⟨"summarize_metrics", emptyArgs⟩]⟩
      = tools_node (fun df _ => df) (fun _ _ _ _ => [])
        [("AAPL", ⟨[⟨2024, 1, 1⟩], [("Close", [some 1])]⟩)] [] ⟨[], none, none, none⟩
        ⟨"CALL_TOOLS", [⟨"summarize_metrics", emptyArgs⟩] ++ [⟨"summarize_metrics", emptyArgs⟩]⟩ ∧
    (alistGet "AAPL" (tools_node (fun df _ => df) (fun _ _ _ _ => [])
      [("AAPL", ⟨[⟨2024, 1, 1⟩], [("Close", [some 1])]⟩)] [] ⟨[], none, none, none⟩
      ⟨"CALL_TOOLS", [⟨"summarize_metrics", emptyArgs⟩]⟩).1).isSome = true :=
  ⟨claim_C9.1 (fun df _ => df) (fun _ _ _ _ => [])
      [("AAPL", ⟨[⟨2024, 1, 1⟩], [("Close", [some 1])]⟩)] [] ⟨[], none, none, none⟩
      "CALL_TOOLS" [⟨"summarize_metrics", emptyArgs⟩] [⟨"summarize_metrics", emptyArgs⟩]
      ⟨none, some ["bogus"], none, none, none⟩ ["bogus"] rfl
      ⟨"bogus", List.Mem.head _, by decide⟩,
   (claim_C9.2 (fun df _ => df) (fun _ _ _ _ => [])
      [("AAPL", ⟨[⟨2024, 1, 1⟩], [("Close", [some 1])]⟩)] [] ⟨[], none, none, none⟩
      ⟨"CALL_TOOLS", [⟨"summarize_metrics", emptyArgs⟩]⟩ "AAPL").1 rfl⟩

theorem router_node_cap (planner : PlannerOracle) (st : LoopState)
    (h : 3 ≤ st.iterations + 1) :
    router_node planner st = (st.iterations + 1, ⟨"FINALIZE", []⟩, false) := by
  unfold router_node
  rw [if_pos h]

theorem router_node_go (planner : PlannerOracle) (st : LoopState)
    (h : ¬ 3 ≤ st.iterations + 1) :
    router_node planner st
      = (st.iterations + 1, (planner st).getD (create_fallback_plan st), true) := by
  unfold router_node
  rw [if_neg h]
  cases planner st <;> rfl

theorem run_loop_count (planner : PlannerOracle) (fill : DFrame → List String → DFrame)
    (fetch : FetchOracle) :
    ∀ (fuel : Nat) (st : LoopState),
      (run_loop planner fill fetch fuel st).1 ≤ 2 - st.iterations := by
  intro fuel
  induction fuel with
  | zero => intro st; simp [run_loop]
  | succ n ih =>
    intro st
    unfold run_loop
    by_cases h3 : 3 ≤ st.iterations + 1
    · rw [router_node_cap planner st h3]
      simp [route_decider]
    · rw [router_node_go planner st h3]
      dsimp only
      by_cases hr : route_decider ((planner st).getD (create_fallback_plan st)) = "CALL_TOOLS"
      · rw [if_pos hr]
        dsimp only
        have hrec := ih { st with
          iterations := st.iterations + 1,
          dataframes := (tools_node fill fetch st.dataframes st.metrics st.parsed
            ((planner st).getD (create_fallback_plan st))).1,
          metrics := (tools_node fill fetch st.dataframes st.metrics st.parsed
            ((planner st).getD (create_fallback_plan st))).2 }
        dsimp only at hrec
        simp only [reduceIte]
        omega
      · rw [if_neg hr]
        dsimp only
        simp only [reduceIte]
        omega

/-- Claim C1: once the iteration counter (incremented on each entry to
routing) reaches the cap of 3, the router forces a FINALIZE plan
without invoking the planner; consequently a run of the loop from a
fresh state never invokes the planner more than 3 times (in fact at
most 2), however often the planner answers CALL_TOOLS. -/
theorem claim_C1 :
    (∀ (planner : PlannerOracle) (st : LoopState), 2 ≤ st.iterations →
      router_node planner st = (st.iterations + 1, ⟨"FINALIZE", []⟩, false)) ∧
    (∀ (planner : PlannerOracle) (fill : DFrame → List String → DFrame)
      (fetch : FetchOracle) (fuel : Nat) (st : LoopState),
      st.iterations = 0 → (run_loop planner fill fetch fuel st).1 ≤ 3) := by
  constructor
  · intro planner st h
    exact router_node_cap planner st (by omega)
  · intro planner fill fetch fuel st h0
    have h := run_loop_count planner fill fetch fuel st
    omega

/-- Witness for claim C1: a planner that always answers CALL_TOOLS is
still invoked at most 3 times over a 10-step run from a fresh state,
and the third entry to routing is forced to FINALIZE. -/
theorem claim_C1_witness :
    (run_loop (fun _ => some ⟨"CALL_TOOLS", [⟨"fetch_prices", emptyArgs⟩]⟩)
      (fun df _ => df) (fun _ _ _ _ => []) 10 ⟨0, [], [], ⟨[], none, none, none⟩⟩).1 ≤ 3 ∧
    router_node (fun _ => some ⟨"CALL_TOOLS", [⟨"fetch_prices", emptyArgs⟩]⟩)
      ⟨2, [], [], ⟨[], none, none, none⟩⟩ = (3, ⟨"FINALIZE", []⟩, false) :=
  ⟨claim_C1.2 (fun _ => some ⟨"CALL_TOOLS", [⟨"fetch_prices", emptyArgs⟩]⟩)
      (fun df _ => df) (fun _ _ _ _ => []) 10 ⟨0, [], [], ⟨[], none, none, none⟩⟩ rfl,
   claim_C1.1 (fun _ => some ⟨"CALL_TOOLS", [⟨"fetch_prices", emptyArgs⟩]⟩)
      ⟨2, [], [], ⟨[], none, none, none⟩⟩ (by decide)⟩

end Afa
